import Mathlib

/-!
Shallow embedding of a minimal RAG pipeline (search provider, answer
generator, response evaluator, command surface) and proofs of the
specification claims about it.

Conventions of the embedding:
* Python strings become `String`, Python `None`-able string fields become
  `Option String`.
* Python truthiness of a string value (`None` and `""` are falsy) is
  `pyTruthy`.
* Python numbers become `ℚ` (the reachable computations are exact decimal
  fractions, so no floating-point artifact is observable at the inputs the
  claims use).
* External effects (the search backend's result stream, the
  chat-completion call and the JSON parse of its reply) are oracle inputs:
  the stream is the list of items the backend yields before it ends or
  raises, and a completion-plus-parse outcome is an `Except` value.
-/

namespace RagPipeline

/-- Truthiness of a Python optional string: `None` and `""` are falsy. -/
def pyTruthy : Option String → Bool
  | none => false
  | some s => s ≠ ""

/-- Python `a or b` on two optional strings: returns `a` when it is truthy,
otherwise `b` (which may itself be `None`). -/
def pyOrOpt (a b : Option String) : Option String :=
  if pyTruthy a then a else b

/-- Python `a or d` where `d` is a plain string default: returns the string
in `a` when truthy, otherwise `d`. -/
def pyOrStr (a : Option String) (d : String) : String :=
  match a with
  | none => d
  | some s => if s = "" then d else s

/-- Normalized search record produced by the search provider
(`search_ddg.py`): each field may be absent. -/
structure SearchResult where
  title : Option String
  url : Option String
  description : Option String
  deriving DecidableEq, Repr

/-- Raw item yielded by the DuckDuckGo backend stream; the provider reads
these keys (`title`, `link`/`url`/`href`, `body`/`desc`), each possibly
absent. -/
structure DdgItem where
  title : Option String
  link : Option String
  url : Option String
  href : Option String
  body : Option String
  desc : Option String
  deriving DecidableEq, Repr

/-- Field normalization performed inside the loop of `search_duckduckgo`:
`url = item.get('link') or item.get('url') or item.get('href')` and
`description = item.get('body') or item.get('desc') or None`. -/
def mapItem (item : DdgItem) : SearchResult :=
  { title := item.title
    url := pyOrOpt (pyOrOpt item.link item.url) item.href
    description := pyOrOpt item.body (pyOrOpt item.desc none) }

/-- Value passed as the `query` argument; the claims need at least strings,
integers and `None`. -/
inductive PyValue where
  | str (s : String)
  | int (n : ℤ)
  | pyNone
  deriving DecidableEq, Repr

/-- Whether a `PyValue` is a Python string (`isinstance(query, str)`). -/
def PyValue.isStr : PyValue → Bool
  | .str _ => true
  | _ => false

/-- Errors `search_duckduckgo` can raise: `TypeError("query must be a
string")` and `RuntimeError("ddgs library is not available ...")`. -/
inductive SearchError where
  | invalidArgument
  | dependencyUnavailable
  deriving DecidableEq, Repr

/-- Collection loop of `search_duckduckgo`: for each yielded item, append
its normalized record, then `break` once `len(results) >= max_results`.
An iteration that raises is modelled by truncating the stream at the raise
point, because the `except` handler returns the partial `results` list
unchanged. -/
def collectLoop (maxResults : ℤ) : List DdgItem → List SearchResult → List SearchResult
  | [], acc => acc
  | item :: rest, acc =>
    let acc2 := acc ++ [mapItem item]
    if (acc2.length : ℤ) ≥ maxResults then acc2 else collectLoop maxResults rest acc2

/-- Search provider `search_duckduckgo(query, max_results, ...)`:
raises `TypeError` for a non-string query before touching the backend,
raises `RuntimeError` when the `ddgs` dependency is unavailable, and
otherwise runs the collection loop over the backend stream. -/
def search_duckduckgo (query : PyValue) (ddgsAvailable : Bool)
    (stream : List DdgItem) (maxResults : ℤ) :
    Except SearchError (List SearchResult) :=
  if query.isStr = false then .error .invalidArgument
  else if ddgsAvailable = false then .error .dependencyUnavailable
  else .ok (collectLoop maxResults stream [])

/-- Backend item used in concrete search examples. -/
def cexDdgItem : DdgItem :=
  { title := some "Rust ownership", link := some "https://example.org",
    url := none, href := none, body := some "intro", desc := none }

/-- Record returned by `rag_answer` (`rag_agent.py`): the original query,
the generated or fallback answer text, and the source list. -/
structure AnswerResult where
  query : String
  answer : String
  sources : List SearchResult
  deriving DecidableEq, Repr

/-- One indexed context block from `rag_answer`'s loop:
`f"[{i}] {title}\n{url}\n{desc}"` where
`title = r.get("title") or "(no title)"`, `url = r.get("url") or "(no url)"`
and `desc = r.get("description") or ""`. -/
def buildBlock (i : ℕ) (r : SearchResult) : String :=
  "[" ++ toString i ++ "] " ++ pyOrStr r.title "(no title)" ++ "\n" ++
    pyOrStr r.url "(no url)" ++ "\n" ++ pyOrStr r.description ""

/-- The `docs` list built by `enumerate(results, start=1)`. -/
def buildDocs (i : ℕ) : List SearchResult → List String
  | [] => []
  | r :: rs => buildBlock i r :: buildDocs (i + 1) rs

/-- The compact context `"\n\n".join(docs)`. -/
def buildContext (results : List SearchResult) : String :=
  String.intercalate "\n\n" (buildDocs 1 results)

/-- Answer generator `rag_answer(query, max_results, model)`. The search
stage's output, the `DEEPSEEK_API_KEY` environment value and the outcome of
the chat-completion call are oracle inputs; the completion branch is taken
only when the key is truthy, and a completion failure is absorbed into a
fallback answer that embeds the exception message and the context. -/
def rag_answer (query : String) (results : List SearchResult)
    (apiKey : Option String) (completion : Except String String) : AnswerResult :=
  let context := buildContext results
  if pyTruthy apiKey then
    match completion with
    | .ok text => { query := query, answer := text.trim, sources := results }
    | .error e =>
      { query := query
        answer := "DeepSeek API error: " ++ e ++ "\n\nFallback search results:\n" ++ context
        sources := results }
  else
    { query := query
      answer := "No DEEPSEEK_API_KEY set or `openai` package not found. Returning aggregated search snippets:\n\n" ++ context
      sources := results }

/-- Backend item whose `title` key is absent. -/
def c7Item1 : DdgItem :=
  { title := none, link := some "https://example.org", url := none,
    href := none, body := some "a body", desc := none }

/-- Backend item whose `title` key holds the empty string. -/
def c7Item2 : DdgItem :=
  { title := some "", link := some "https://example.org", url := none,
    href := none, body := some "a body", desc := none }

/-- Scalar JSON value as Python's json module produces it; the evaluator's
claims only inspect scalar fields of the parsed object. -/
inductive JVal where
  | num (q : ℚ)
  | str (s : String)
  | bool (b : Bool)
  | null
  deriving DecidableEq, Repr

/-- Python dict lookup `d.get(k)` on an insertion-ordered dict modelled as
an association list with unique keys. -/
def dget : List (String × JVal) → String → Option JVal
  | [], _ => none
  | (k', v) :: rest, k => if k' = k then some v else dget rest k

/-- Python dict assignment `d[k] = v`: replace in place when the key
exists, otherwise append at the end. -/
def dset : List (String × JVal) → String → JVal → List (String × JVal)
  | [], k, v => [(k, v)]
  | (k', v') :: rest, k, v =>
    if k' = k then (k, v) :: rest else (k', v') :: dset rest k v

/-- Python `round(x, 1)` on an exact rational: round half to even at the
tenths position. The source rounds a float; every value reachable in the
claims is an exact decimal fraction away from a tie, where float rounding
and this exact rounding agree. -/
def pyRound1 (x : ℚ) : ℚ :=
  let f := ⌊10 * x⌋
  let r := 10 * x - (f : ℚ)
  if r < 1 / 2 then (f : ℚ) / 10
  else if 1 / 2 < r then ((f : ℚ) + 1) / 10
  else if f % 2 = 0 then (f : ℚ) / 10 else ((f : ℚ) + 1) / 10

/-- Contribution of one score field to the weighted sum, before weighting:
`eval_dict.get(key, 5)`. A missing key contributes the default 5; a JSON
number contributes itself; a JSON boolean is a Python int subtype and
contributes 0 or 1; multiplying any other value by a float weight raises
`TypeError`, modelled as `none` and caught by the surrounding handler. -/
def scoreVal (d : List (String × JVal)) (k : String) : Option ℚ :=
  match dget d k with
  | none => some 5
  | some (.num q) => some q
  | some (.bool b) => some (if b then 1 else 0)
  | some _ => none

/-- The weighted overall score of `evaluate_response`'s parse-success
branch: `get("accuracy_score", 5)*0.3 + get("relevance_score", 5)*0.3 +
get("search_quality", 5)*0.3 + get("citation_quality", 5)*0.1`, or `none`
when a score value's weighting raises. -/
def weightedOverall (d : List (String × JVal)) : Option ℚ := do
  let a ← scoreVal d "accuracy_score"
  let r ← scoreVal d "relevance_score"
  let s ← scoreVal d "search_quality"
  let c ← scoreVal d "citation_quality"
  pure (a * (3 / 10) + r * (3 / 10) + s * (3 / 10) + c * (1 / 10))

/-- Result of `json.loads` on the completion text: either a JSON object
(modelled by its scalar fields) or some other JSON value. -/
inductive Parsed where
  | obj (kvs : List (String × JVal))
  | nonObj
  deriving DecidableEq, Repr

/-- Fixed neutral report returned by `evaluate_response`'s exception
handler, with the captured error's text `e` embedded in the feedback. -/
def neutralReport (e : String) : List (String × JVal) :=
  [("accuracy_score", .num 5),
   ("relevance_score", .num 5),
   ("citation_quality", .num 5),
   ("search_quality", .num 5),
   ("overall_score", .num 5),
   ("feedback", .str ("Evaluation failed: " ++ e ++ ". Using neutral scores.")),
   ("strengths", .str "Evaluation system error, unable to evaluate."),
   ("opportunity", .str "Evaluation system error, unable to evaluate.")]

/-- Model-path processing of a successfully parsed completion. A parsed
value that is not an object makes `eval_dict.get` raise `AttributeError`,
and a non-numeric score value makes the weighting raise `TypeError`; both
land in the handler, which returns the neutral report naming the error (the
embedding abbreviates the Python exception texts). On an object with
numeric-or-missing scores, the parsed dict itself is returned with
`overall_score` set to the rounded weighted sum. -/
def evaluateParsed : Parsed → List (String × JVal)
  | .nonObj => neutralReport "AttributeError"
  | .obj kvs =>
    match weightedOverall kvs with
    | some o => dset kvs "overall_score" (.num (pyRound1 o))
    | none => neutralReport "TypeError"

/-- Python `len(answer.split())`: count of whitespace-separated words,
empty pieces dropped. -/
def pyWordCount (s : String) : ℕ :=
  ((s.split fun c => c.isWhitespace).filter fun w => w ≠ "").length

/-- Heuristic evaluation `_fallback_evaluation(query, answer, sources)`
taken when no LLM is reachable; `envKey` is the `DEEPSEEK_API_KEY`
environment value consulted for the `opportunity` text. The returned dict
has no `search_quality` key. -/
def fallback_evaluation (query answer : String) (sources : List SearchResult)
    (envKey : Option String) : List (String × JVal) :=
  let answer_len := pyWordCount answer
  let has_citations := answer.contains '[' && answer.contains ']'
  let has_sources := 0 < sources.length
  let accuracy : ℚ := if has_sources then 6 else 4
  let relevance : ℚ := if 20 < answer_len then 7 else 5
  let citation : ℚ := if has_citations then 8 else 4
  [("accuracy_score", .num accuracy),
   ("relevance_score", .num relevance),
   ("citation_quality", .num citation),
   ("overall_score", .num (pyRound1 ((accuracy + relevance + citation) / 3))),
   ("feedback", .str "Heuristic evaluation (no LLM available). Actual quality may vary."),
   ("strengths", .str (if 10 < answer_len then "Response generated successfully" else "Short response")),
   ("opportunity", .str (if pyTruthy envKey then "None detected" else "Use OpenAI API key for evaluation"))]

/-- Response evaluator `evaluate_response(query, answer, sources, model)`:
takes the heuristic path when no API key is configured; otherwise processes
the outcome of the completion call and JSON parse (an oracle input, `error`
carrying the exception text of a transport or parse failure). The function
is total: no failure propagates to the caller. -/
def evaluate_response (query answer : String) (sources : List SearchResult)
    (apiKey : Option String) (outcome : Except String Parsed) :
    List (String × JVal) :=
  if pyTruthy apiKey then
    match outcome with
    | .error e => neutralReport e
    | .ok p => evaluateParsed p
  else fallback_evaluation query answer sources apiKey

/-- Parsed model scores used by claim C1: accuracy 8, relevance 6,
search quality 7, citation quality 9. -/
def c1Kvs : List (String × JVal) :=
  [("accuracy_score", .num 8), ("relevance_score", .num 6),
   ("search_quality", .num 7), ("citation_quality", .num 9)]

/-- Parsed completion used by claim C10's counterexample: a JSON object
whose accuracy score is the string "high". -/
def c10Bad : List (String × JVal) := [("accuracy_score", .str "high")]

/-- Parsed completion used by claim C10's witness: an out-of-range score
and a feedback string. -/
def c10Kvs : List (String × JVal) :=
  [("accuracy_score", .num 14), ("feedback", .str "solid answer")]

/-- State of the `--evaluate` option after argument parsing: `argparse` is
configured with `default=True` and no type converter, so it stores the
Python bool `True` when the flag is absent and otherwise the raw
command-line string. -/
inductive EvalFlag where
  | defaultTrue
  | given (s : String)
  deriving DecidableEq, Repr

/-- Condition of `cli.main`'s `if args.evaluate:`: Python truthiness of the
stored value — `True` when the flag is absent, non-emptiness of the string
when a value was passed. -/
def runsEvaluation : EvalFlag → Bool
  | .defaultTrue => true
  | .given s => s ≠ ""

/-- Keys `cli.main` reads from the evaluation report, in print order. -/
def requiredEvalKeys : List String :=
  ["accuracy_score", "relevance_score", "search_quality", "citation_quality",
   "overall_score", "feedback", "strengths", "opportunity"]

/-- Report printing in `cli.main`: subscripting the report dict with each
required key in order; the first missing key raises `KeyError` (modelled as
`error` carrying the key), otherwise printing completes. -/
def printEvalReport (d : List (String × JVal)) : Except String Unit :=
  match requiredEvalKeys.find? (fun k => (dget d k).isNone) with
  | some k => .error k
  | none => .ok ()

/-- Helper invariant for the collection loop: once the accumulator is
strictly below the bound, the final length stays within the bound. -/
theorem collectLoop_length_le (k : ℤ) (stream : List DdgItem) :
    ∀ acc : List SearchResult, (acc.length : ℤ) < k →
      ((collectLoop k stream acc).length : ℤ) ≤ k := by
  induction stream with
  | nil =>
    intro acc h
    simpa [collectLoop] using le_of_lt h
  | cons item rest ih =>
    intro acc h
    simp only [collectLoop]
    split
    · simp only [List.length_append, List.length_singleton]
      push_cast
      omega
    · rename_i hb
      apply ih
      simp only [List.length_append, List.length_singleton] at hb ⊢
      push_cast at hb ⊢
      omega

/-- Helper: the collection loop never drops already-collected items, so its
result is at least as long as the accumulator. -/
theorem collectLoop_length_ge (k : ℤ) (stream : List DdgItem) :
    ∀ acc : List SearchResult, acc.length ≤ (collectLoop k stream acc).length := by
  induction stream with
  | nil =>
    intro acc
    simp [collectLoop]
  | cons item rest ih =>
    intro acc
    simp only [collectLoop]
    split
    · simp
    · have h1 : acc.length ≤ (acc ++ [mapItem item]).length := by simp
      exact le_trans h1 (ih _)

/-- Helper: the collection loop applied to a non-empty stream returns at
least one more record than the accumulator holds. -/
theorem collectLoop_cons_length (k : ℤ) (item : DdgItem) (rest : List DdgItem)
    (acc : List SearchResult) :
    acc.length + 1 ≤ (collectLoop k (item :: rest) acc).length := by
  simp only [collectLoop]
  split
  · simp
  · have h := collectLoop_length_ge k rest (acc ++ [mapItem item])
    simpa using h

/-- Claim C9: for a non-string query, `search_duckduckgo` fails with the
`InvalidArgument` error (Python `TypeError`) whatever the backend
availability, the backend stream and the bound are — so the failure happens
before any backend interaction — and no result sequence is produced; the
error is returned to the caller, not swallowed. -/
theorem search_duckduckgo_nonstring_invalid (q : PyValue) (h : q.isStr = false)
    (avail : Bool) (stream : List DdgItem) (k : ℤ) :
    search_duckduckgo q avail stream k = .error .invalidArgument := by
  simp [search_duckduckgo, h]

/-- Witness for C9 at the concrete non-string query `3`. -/
theorem search_duckduckgo_nonstring_invalid_witness :
    (PyValue.int 3).isStr = false ∧
    search_duckduckgo (.int 3) true [] 5 = .error .invalidArgument :=
  ⟨rfl, search_duckduckgo_nonstring_invalid (.int 3) rfl true [] 5⟩

/-- Claim C3 counterexample: with `maxResults = 0` and a backend stream
yielding one item, `search_duckduckgo` still returns one result (the loop
appends before testing the bound), so the claimed bound `length ≤ k` fails
for `k = 0`. -/
theorem search_duckduckgo_maxzero_cex :
    (collectLoop 0 [cexDdgItem] []).length = 1 ∧
    search_duckduckgo (.str "rust") true [cexDdgItem] 0 =
      .ok (collectLoop 0 [cexDdgItem] []) ∧
    ¬ (((collectLoop 0 [cexDdgItem] []).length : ℤ) ≤ 0) := by
  refine ⟨rfl, rfl, by decide⟩

/-- Claim C3 (amended): for every string query, backend stream and
`maxResults = k` with `k ≥ 1`, `search_duckduckgo` returns a sequence of
length at most `k`, and that sequence is empty only when the backend
yielded no items before ending or raising. -/
theorem search_duckduckgo_length_bound (q : String) (stream : List DdgItem)
    (k : ℤ) (hk : 1 ≤ k) :
    search_duckduckgo (.str q) true stream k = .ok (collectLoop k stream []) ∧
    ((collectLoop k stream []).length : ℤ) ≤ k ∧
    ((collectLoop k stream []).length = 0 → stream = []) := by
  refine ⟨rfl, ?_, ?_⟩
  · apply collectLoop_length_le
    simpa using hk
  · intro h0
    cases stream with
    | nil => rfl
    | cons item rest =>
      exfalso
      have h1 := collectLoop_cons_length k item rest []
      omega

/-- Witness for the amended C3 at `k = 3` and a one-item stream. -/
theorem search_duckduckgo_length_bound_witness :
    (1 : ℤ) ≤ 3 ∧
    (search_duckduckgo (.str "rust") true [cexDdgItem] 3 =
       .ok (collectLoop 3 [cexDdgItem] []) ∧
     ((collectLoop 3 [cexDdgItem] []).length : ℤ) ≤ 3 ∧
     ((collectLoop 3 [cexDdgItem] []).length = 0 → [cexDdgItem] = [])) :=
  ⟨by decide, search_duckduckgo_length_bound "rust" [cexDdgItem] 3 (by decide)⟩

/-- Claim C6: when the completion call raises, `rag_answer` returns (rather
than raising) an answer consisting of the exception's message string
followed by the full concatenated context, and its sources are exactly the
search stage's output, unchanged. -/
theorem rag_answer_error_fallback (q : String) (results : List SearchResult)
    (apiKey : Option String) (e : String) (h : pyTruthy apiKey = true) :
    (rag_answer q results apiKey (.error e)).answer =
      "DeepSeek API error: " ++ e ++ "\n\nFallback search results:\n" ++
        buildContext results ∧
    (rag_answer q results apiKey (.error e)).sources = results := by
  simp [rag_answer, h]

/-- Witness for C6 at a concrete key, error message and source list. -/
theorem rag_answer_error_fallback_witness :
    pyTruthy (some "sk-test") = true ∧
    ((rag_answer "q" [mapItem cexDdgItem] (some "sk-test") (.error "Request timed out")).answer =
       "DeepSeek API error: " ++ "Request timed out" ++ "\n\nFallback search results:\n" ++
         buildContext [mapItem cexDdgItem] ∧
     (rag_answer "q" [mapItem cexDdgItem] (some "sk-test") (.error "Request timed out")).sources =
       [mapItem cexDdgItem]) :=
  ⟨by decide,
   rag_answer_error_fallback "q" [mapItem cexDdgItem] (some "sk-test") "Request timed out" (by decide)⟩

/-- Claim C7 counterexample: two distinct results that the search provider
really produces (title absent versus title present-but-empty) are rendered
as the identical context block, in which the placeholder `(no title)`
stands where the title would go — so the block does not reproduce each
result's title verbatim for results with an absent field. -/
theorem buildBlock_absent_title_cex :
    mapItem c7Item1 =
      { title := none, url := some "https://example.org", description := some "a body" } ∧
    mapItem c7Item2 =
      { title := some "", url := some "https://example.org", description := some "a body" } ∧
    mapItem c7Item1 ≠ mapItem c7Item2 ∧
    buildBlock 1 (mapItem c7Item1) = buildBlock 1 (mapItem c7Item2) := by
  refine ⟨rfl, rfl, by decide, rfl⟩

/-- Claim C7 (amended): for every `SearchResult` whose title and url are
present and non-empty and whose description is present, the indexed context
block reproduces title, url and description verbatim, as the exact string
`[i] title\nurl\ndescription`; an absent or empty title/url is rendered as
a placeholder instead, and an absent description as the empty string. -/
theorem buildBlock_verbatim (i : ℕ) (t u d : String) (ht : t ≠ "") (hu : u ≠ "") :
    buildBlock i { title := some t, url := some u, description := some d } =
      "[" ++ toString i ++ "] " ++ t ++ "\n" ++ u ++ "\n" ++ d := by
  by_cases hd : d = "" <;>
    simp [buildBlock, pyOrStr, ht, hu, hd]

/-- Witness for the amended C7 at a concrete result. -/
theorem buildBlock_verbatim_witness :
    ("Rust ownership" ≠ "") ∧ ("https://example.org" ≠ "") ∧
    buildBlock 1 { title := some "Rust ownership", url := some "https://example.org",
                   description := some "intro" } =
      "[" ++ toString 1 ++ "] " ++ "Rust ownership" ++ "\n" ++ "https://example.org" ++
        "\n" ++ "intro" :=
  ⟨by decide, by decide,
   buildBlock_verbatim 1 "Rust ownership" "https://example.org" "intro"
     (by decide) (by decide)⟩

/-- Looking up the key just assigned yields the assigned value. -/
theorem dget_dset_self (d : List (String × JVal)) (k : String) (v : JVal) :
    dget (dset d k v) k = some v := by
  induction d with
  | nil => simp [dset, dget]
  | cons kv rest ih =>
    obtain ⟨k', v'⟩ := kv
    by_cases h : k' = k
    · simp [dset, dget, h]
    · simp [dset, dget, h, ih]

/-- Assignment leaves every other key's value unchanged. -/
theorem dget_dset_ne (d : List (String × JVal)) (k k2 : String) (v : JVal)
    (h : k2 ≠ k) :
    dget (dset d k v) k2 = dget d k2 := by
  induction d with
  | nil => simp [dset, dget, h.symm]
  | cons kv rest ih =>
    obtain ⟨k', v'⟩ := kv
    by_cases hk : k' = k
    · subst hk
      simp [dset, dget, h.symm]
    · by_cases h2 : k' = k2 <;> simp [dset, dget, hk, h2, h, ih]

/-- Helper: evaluation of `pyRound1` when `10 * x` is already an integer,
so rounding changes nothing. -/
theorem pyRound1_exact (x : ℚ) (n : ℤ) (h : 10 * x = (n : ℚ)) :
    pyRound1 x = (n : ℚ) / 10 := by
  have hf : ⌊10 * x⌋ = n := by rw [h]; exact Int.floor_intCast n
  simp only [pyRound1, hf, h]
  norm_num

/-- Helper: evaluation of `pyRound1` when the fractional part of `10 * x`
is above one half, so the value rounds up. -/
theorem pyRound1_up (x : ℚ) (n : ℤ) (hf : ⌊10 * x⌋ = n)
    (hr : 1 / 2 < 10 * x - (n : ℚ)) :
    pyRound1 x = ((n : ℚ) + 1) / 10 := by
  simp only [pyRound1, hf]
  rw [if_neg (by linarith), if_pos hr]

/-- Claim C1 counterexample: at scores accuracy 8, relevance 6,
search quality 7, citation quality 9 the code's weighted sum is
0.3*8 + 0.3*6 + 0.3*7 + 0.1*9 = 7.2, which rounding leaves unchanged, so
`overall_score` is 7.2 — not the 6.9 the claim computes for the same
expression. -/
theorem evaluateParsed_weighted_cex :
    dget (evaluateParsed (.obj c1Kvs)) "overall_score" = some (.num (36 / 5)) ∧
    (36 / 5 : ℚ) ≠ 69 / 10 := by
  have h1 : scoreVal c1Kvs "accuracy_score" = some 8 := by decide
  have h2 : scoreVal c1Kvs "relevance_score" = some 6 := by decide
  have h3 : scoreVal c1Kvs "search_quality" = some 7 := by decide
  have h4 : scoreVal c1Kvs "citation_quality" = some 9 := by decide
  have hw : weightedOverall c1Kvs = some (36 / 5) := by
    simp [weightedOverall, h1, h2, h3, h4]
    norm_num
  have hr : pyRound1 (36 / 5) = 36 / 5 := by
    rw [pyRound1_exact (36 / 5) 72 (by norm_num)]
    norm_num
  refine ⟨?_, by norm_num⟩
  simp [evaluateParsed, hw, hr, dget_dset_self]

/-- Claim C1 (amended): on the model path, whenever the completion parses
as a JSON object each of whose four score fields weights as a number (a
missing field defaulting to 5 before weighting), `evaluate_response` sets
`overall_score` to `round(0.3*accuracy + 0.3*relevance + 0.3*search_quality
+ 0.1*citation_quality, 1)`; for scores 8, 6, 7, 9 this equals 7.2, not
6.9. -/
theorem evaluateParsed_overall_weighted (kvs : List (String × JVal)) (a r s c : ℚ)
    (ha : scoreVal kvs "accuracy_score" = some a)
    (hr : scoreVal kvs "relevance_score" = some r)
    (hs : scoreVal kvs "search_quality" = some s)
    (hc : scoreVal kvs "citation_quality" = some c) :
    dget (evaluateParsed (.obj kvs)) "overall_score" =
      some (.num (pyRound1 (a * (3 / 10) + r * (3 / 10) + s * (3 / 10) + c * (1 / 10)))) := by
  have hw : weightedOverall kvs =
      some (a * (3 / 10) + r * (3 / 10) + s * (3 / 10) + c * (1 / 10)) := by
    simp [weightedOverall, ha, hr, hs, hc]
  simp [evaluateParsed, hw, dget_dset_self]

/-- Witness for the amended C1 at the concrete scores 8, 6, 7, 9. -/
theorem evaluateParsed_overall_weighted_witness :
    scoreVal c1Kvs "accuracy_score" = some 8 ∧
    scoreVal c1Kvs "relevance_score" = some 6 ∧
    scoreVal c1Kvs "search_quality" = some 7 ∧
    scoreVal c1Kvs "citation_quality" = some 9 ∧
    dget (evaluateParsed (.obj c1Kvs)) "overall_score" =
      some (.num (pyRound1 (8 * (3 / 10) + 6 * (3 / 10) + 7 * (3 / 10) + 9 * (1 / 10)))) :=
  ⟨by decide, by decide, by decide, by decide,
   evaluateParsed_overall_weighted c1Kvs 8 6 7 9
     (by decide) (by decide) (by decide) (by decide)⟩

/-- Claim C10 counterexample: the completion `{"accuracy_score": "high"}`
parses as JSON, but weighting the string raises `TypeError`, the handler
returns the neutral report, and the model's value "high" is replaced by 5
instead of being passed through — the report is not the parsed object with
`overall_score` added. -/
theorem evaluateParsed_passthrough_cex :
    dget c10Bad "accuracy_score" = some (.str "high") ∧
    dget (evaluateParsed (.obj c10Bad)) "accuracy_score" = some (.num 5) ∧
    dget (evaluateParsed (.obj c10Bad)) "accuracy_score" ≠ dget c10Bad "accuracy_score" := by
  refine ⟨rfl, by decide, by decide⟩

/-- Claim C10 (amended): whenever the completion parses as a JSON object
whose score fields weight as numbers (a missing one defaulting to 5 only
inside the weighted sum), the returned report is exactly the parsed object
with the key `overall_score` set to the rounded weighted sum, and every
other key still maps to exactly the value the model returned — no clamping
and no type normalization. -/
theorem evaluateParsed_passthrough (kvs : List (String × JVal)) (o : ℚ) (k : String)
    (hw : weightedOverall kvs = some o) (hk : k ≠ "overall_score") :
    evaluateParsed (.obj kvs) = dset kvs "overall_score" (.num (pyRound1 o)) ∧
    dget (evaluateParsed (.obj kvs)) k = dget kvs k := by
  constructor
  · simp [evaluateParsed, hw]
  · simp [evaluateParsed, hw, dget_dset_ne _ _ _ _ hk]

/-- Helper: the weighted sum of `c10Kvs` is 0.3*14 + 0.3*5 + 0.3*5 + 0.1*5
= 7.7, the out-of-range score 14 entering unclamped. -/
theorem weightedOverall_c10Kvs : weightedOverall c10Kvs = some (77 / 10) := by
  have h1 : scoreVal c10Kvs "accuracy_score" = some 14 := by decide
  have h2 : scoreVal c10Kvs "relevance_score" = some 5 := by decide
  have h3 : scoreVal c10Kvs "search_quality" = some 5 := by decide
  have h4 : scoreVal c10Kvs "citation_quality" = some 5 := by decide
  simp [weightedOverall, h1, h2, h3, h4]
  norm_num

/-- Witness for the amended C10: the out-of-range score 14 is weighted
unclamped (overall 0.3*14 + 0.3*5 + 0.3*5 + 0.1*5 = 7.7) and the feedback
value is passed through. -/
theorem evaluateParsed_passthrough_witness :
    weightedOverall c10Kvs = some (77 / 10) ∧ "feedback" ≠ "overall_score" ∧
    (evaluateParsed (.obj c10Kvs) =
       dset c10Kvs "overall_score" (.num (pyRound1 (77 / 10))) ∧
     dget (evaluateParsed (.obj c10Kvs)) "feedback" = dget c10Kvs "feedback") :=
  ⟨weightedOverall_c10Kvs, by decide,
   evaluateParsed_passthrough c10Kvs (77 / 10) "feedback"
     weightedOverall_c10Kvs (by decide)⟩

/-- Claim C5: when the model-path call or parse fails with any error `e`,
`evaluate_response` returns the fixed neutral report — all four sub-scores
5, `overall_score` 5.0, feedback naming the captured error — and, being a
total function, never propagates the exception to its caller. -/
theorem evaluate_response_error_neutral (q a : String) (s : List SearchResult)
    (key : Option String) (e : String) (h : pyTruthy key = true) :
    evaluate_response q a s key (.error e) = neutralReport e ∧
    dget (neutralReport e) "accuracy_score" = some (.num 5) ∧
    dget (neutralReport e) "relevance_score" = some (.num 5) ∧
    dget (neutralReport e) "search_quality" = some (.num 5) ∧
    dget (neutralReport e) "citation_quality" = some (.num 5) ∧
    dget (neutralReport e) "overall_score" = some (.num 5) ∧
    dget (neutralReport e) "feedback" =
      some (.str ("Evaluation failed: " ++ e ++ ". Using neutral scores.")) := by
  refine ⟨by simp [evaluate_response, h], rfl, rfl, rfl, rfl, rfl, rfl⟩

/-- Witness for C5 at the concrete malformed-JSON error text json.loads
produces for the completion "not json". -/
theorem evaluate_response_error_neutral_witness :
    pyTruthy (some "sk-test") = true ∧
    (evaluate_response "q" "a" [] (some "sk-test")
        (.error "Expecting value: line 1 column 1 (char 0)") =
       neutralReport "Expecting value: line 1 column 1 (char 0)" ∧
     dget (neutralReport "Expecting value: line 1 column 1 (char 0)") "accuracy_score" =
       some (.num 5) ∧
     dget (neutralReport "Expecting value: line 1 column 1 (char 0)") "relevance_score" =
       some (.num 5) ∧
     dget (neutralReport "Expecting value: line 1 column 1 (char 0)") "search_quality" =
       some (.num 5) ∧
     dget (neutralReport "Expecting value: line 1 column 1 (char 0)") "citation_quality" =
       some (.num 5) ∧
     dget (neutralReport "Expecting value: line 1 column 1 (char 0)") "overall_score" =
       some (.num 5) ∧
     dget (neutralReport "Expecting value: line 1 column 1 (char 0)") "feedback" =
       some (.str ("Evaluation failed: " ++ "Expecting value: line 1 column 1 (char 0)" ++
         ". Using neutral scores."))) :=
  ⟨by decide,
   evaluate_response_error_neutral "q" "a" [] (some "sk-test")
     "Expecting value: line 1 column 1 (char 0)" (by decide)⟩

/-- Claim C4: with no API key configured, `evaluate_response` reports
accuracy 6 when the sources list is non-empty else 4, relevance 7 when the
answer has more than 20 whitespace-separated words else 5, citation quality
8 when the answer contains both a `[` and a `]` character else 4, and as
overall score the unweighted mean of these three rounded to one decimal;
the report carries no `search_quality` key. -/
theorem evaluate_response_fallback_fields (q a : String) (s : List SearchResult)
    (key : Option String) (outcome : Except String Parsed)
    (h : pyTruthy key = false) :
    dget (evaluate_response q a s key outcome) "accuracy_score" =
      some (.num (if s ≠ [] then 6 else 4)) ∧
    dget (evaluate_response q a s key outcome) "relevance_score" =
      some (.num (if 20 < pyWordCount a then 7 else 5)) ∧
    dget (evaluate_response q a s key outcome) "citation_quality" =
      some (.num (if a.contains '[' ∧ a.contains ']' then 8 else 4)) ∧
    dget (evaluate_response q a s key outcome) "overall_score" =
      some (.num (pyRound1 (((if s ≠ [] then (6 : ℚ) else 4) +
        (if 20 < pyWordCount a then (7 : ℚ) else 5) +
        (if a.contains '[' ∧ a.contains ']' then (8 : ℚ) else 4)) / 3))) ∧
    dget (evaluate_response q a s key outcome) "search_quality" = none := by
  have hfall : evaluate_response q a s key outcome = fallback_evaluation q a s key := by
    simp [evaluate_response, h]
  rw [hfall]
  simp [fallback_evaluation, dget, List.length_pos, Bool.and_eq_true]

/-- Witness for C4: empty key, empty sources, a nine-character answer with
a citation bracket pair. -/
theorem evaluate_response_fallback_fields_witness :
    pyTruthy none = false ∧
    (dget (evaluate_response "q" "See [1]." [] none (.error "boom")) "accuracy_score" =
       some (.num (if ([] : List SearchResult) ≠ [] then 6 else 4)) ∧
     dget (evaluate_response "q" "See [1]." [] none (.error "boom")) "relevance_score" =
       some (.num (if 20 < pyWordCount "See [1]." then 7 else 5)) ∧
     dget (evaluate_response "q" "See [1]." [] none (.error "boom")) "citation_quality" =
       some (.num (if ("See [1].").contains '[' ∧ ("See [1].").contains ']' then 8 else 4)) ∧
     dget (evaluate_response "q" "See [1]." [] none (.error "boom")) "overall_score" =
       some (.num (pyRound1 (((if ([] : List SearchResult) ≠ [] then (6 : ℚ) else 4) +
         (if 20 < pyWordCount "See [1]." then (7 : ℚ) else 5) +
         (if ("See [1].").contains '[' ∧ ("See [1].").contains ']' then (8 : ℚ) else 4)) / 3))) ∧
     dget (evaluate_response "q" "See [1]." [] none (.error "boom")) "search_quality" = none) :=
  ⟨rfl, evaluate_response_fallback_fields "q" "See [1]." [] none (.error "boom") rfl⟩

/-- Claim C8: with the default, the evaluation stage runs; but a passed
value is kept as a raw string and every non-empty string — including
"false", "False" and "0" — is truthy, so passing a false value does not
disable the stage; only the empty string would. -/
theorem runsEvaluation_string_truthy :
    runsEvaluation .defaultTrue = true ∧
    runsEvaluation (.given "false") = true ∧
    runsEvaluation (.given "False") = true ∧
    runsEvaluation (.given "0") = true ∧
    runsEvaluation (.given "") = false := by
  decide

/-- Claim C2: on a run with evaluation enabled and no API key configured,
the evaluation stage returns the heuristic report, which has no
`search_quality` key, so `cli.main`'s report printing raises
`KeyError('search_quality')` — an unhandled error that is neither
`InvalidArgument` nor `DependencyUnavailable` escapes the top level, and no
complete evaluation report is printed. -/
theorem printEvalReport_fallback_keyerror (q a : String) (s : List SearchResult)
    (key : Option String) (outcome : Except String Parsed)
    (h : pyTruthy key = false) :
    printEvalReport (evaluate_response q a s key outcome) = .error "search_quality" := by
  have hfall : evaluate_response q a s key outcome = fallback_evaluation q a s key := by
    simp [evaluate_response, h]
  rw [hfall]
  simp [printEvalReport, requiredEvalKeys, fallback_evaluation, dget]

/-- Witness for C2 at a concrete no-key invocation. -/
theorem printEvalReport_fallback_keyerror_witness :
    pyTruthy none = false ∧
    printEvalReport (evaluate_response "test query" "an answer" [] none (.error "no call")) =
      .error "search_quality" :=
  ⟨rfl, printEvalReport_fallback_keyerror "test query" "an answer" [] none (.error "no call") rfl⟩

end RagPipeline
